import Mathlib

/-!
Verification of the staged pipeline orchestrator and multi-source discovery
aggregator of the `autopilot-core2` repository (package `pi_core`).

The Python source is embedded shallowly:

* `pi_core/models/__init__.py` — the pydantic data model becomes plain
  structures.  Wall-clock timestamps (`datetime`) are abstracted to `Nat`
  tick values supplied by the caller; evidence snippets and the untyped
  FAQ field are carried only where a claim needs them.
* `pi_core/engines/__init__.py` — `ProblemDiscoveryEngine.discover` and
  `_deduplicate_problems`.  Python's `list.sort(key=..., reverse=True)` is a
  stable sort; it is modelled by `List.insertionSort` with the reversed
  comparison on the composite key, which produces exactly the stable
  descending order.
* `pi_core/adapters/reddit_adapter.py`, `github_adapter.py` — the
  `_calculate_confidence` scoring functions.  Python floats are modelled by
  exact rationals.
* `pi_core/database.py` — the SQLite store becomes a record of lists, newest
  entry first (matching the `order_by(... .desc())` read queries).
* `pi_core/pipeline/__init__.py` — `PipelineRunner` becomes a pure state
  transformer.  The four domain engines are external collaborators: their
  behaviour is a parameter (`Engines`), with a raised Python exception
  modelled as `Except.error` carrying `str(e)`.  Every store call is also
  recorded in an event trace so that ordering claims can be stated.
-/

namespace PiCore

/-! ## Data model (`pi_core/models/__init__.py`) -/

inductive ProblemIntent where
  | pain
  | workaround
  | request
deriving DecidableEq, Repr

inductive ProblemSource where
  | reddit
  | github
  | stackoverflow
  | hackernews
deriving DecidableEq, Repr

inductive ProductType where
  | template
  | script
  | guide
  | micro_tool
deriving DecidableEq, Repr

inductive PipelineStage where
  | discover
  | define
  | build
  | package
  | publish
deriving DecidableEq, Repr

inductive PipelineStatus where
  | pending
  | running
  | success
  | failed
  | cancelled
deriving DecidableEq, Repr

/-- `Problem` (discovery timestamp and evidence snippets are abstracted away;
no claim depends on them). -/
structure Problem where
  id : String
  title : String
  description : String
  intent : ProblemIntent
  source : ProblemSource
  confidence_score : ℚ
  frequency_score : ℕ
  recency_score : ℚ
  keywords : List String := []
deriving DecidableEq, Repr

structure Product where
  id : String
  problem_id : String
  title : String
  product_type : ProductType
  target_persona : String
  value_proposition : String
  features : List String := []
  non_goals : List String := []
  why_shippable : String
deriving DecidableEq, Repr

structure MarketplaceListing where
  id : String
  product_id : String
  title : String
  title_variants : List String := []
  description : String
  feature_bullets : List String := []
  anchor_price : ℚ
  impulse_price : ℚ
  asset_bundle_path : Option String := none
deriving DecidableEq, Repr

/-- `PipelineRun`.  `started_at` / `completed_at` are tick values; the
orchestrator receives the completion tick as an argument. -/
structure PipelineRun where
  id : String
  stage : PipelineStage
  status : PipelineStatus
  problem_id : Option String := none
  product_id : Option String := none
  listing_id : Option String := none
  error_message : Option String := none
  logs : List String := []
  artifacts : List String := []
  started_at : ℕ := 0
  completed_at : Option ℕ := none
deriving DecidableEq, Repr

/-! ## Discovery aggregator (`pi_core/engines/__init__.py`) -/

/-- The sort key of `ProblemDiscoveryEngine.discover`:
`p.confidence_score * 0.4 + p.recency_score * 0.3
 + min(p.frequency_score / 15, 1.0) * 0.3`, as a function of the three raw
scores. -/
def composite_score_fn (c r f : ℚ) : ℚ :=
  c * 0.4 + r * 0.3 + min (f / 15) 1.0 * 0.3

def composite_score (p : Problem) : ℚ :=
  composite_score_fn p.confidence_score p.recency_score (p.frequency_score : ℚ)

/-- Python's `str.lower()`, modelled character-wise. -/
def pyLower (s : String) : String := ⟨s.data.map Char.toLower⟩

/-- Loop of `ProblemDiscoveryEngine._deduplicate_problems`: walk the list,
keeping a problem only when its lowercased title has not been seen. -/
def dedupGo : List Problem → List String → List Problem
  | [], _ => []
  | p :: ps, seen =>
    if pyLower p.title ∈ seen then dedupGo ps seen
    else p :: dedupGo ps (pyLower p.title :: seen)

def deduplicate_problems (problems : List Problem) : List Problem :=
  dedupGo problems []

/-- The adapter fan-out loop of `discover`: a raising adapter contributes
nothing (its exception is caught and logged), the rest are concatenated in
order. -/
def collectResults : List (Except String (List Problem)) → List Problem
  | [] => []
  | Except.ok ps :: rest => ps ++ collectResults rest
  | Except.error _ :: rest => collectResults rest

/-- `ProblemDiscoveryEngine.discover(limit)`: collect from every adapter,
deduplicate, stable-sort by composite score descending, truncate.  The list
of per-adapter outcomes stands for the configured adapters (an empty list
models zero configured adapters). -/
def ProblemDiscoveryEngine.discover
    (adapterResults : List (Except String (List Problem))) (limit : ℕ) :
    List Problem :=
  let all_problems := collectResults adapterResults
  let unique_problems := deduplicate_problems all_problems
  (List.insertionSort
    (fun p q => composite_score q ≤ composite_score p) unique_problems).take limit

/-! ## Adapter confidence scoring -/

/-- `RedditAdapter._calculate_confidence`: base 0.5, boosts for upvotes and
comments, capped at 1.0. -/
def RedditAdapter.calculate_confidence (postScore numComments : ℤ) : ℚ :=
  let score : ℚ := 0.5
  let score := if postScore > 10 then score + 0.2 else score
  let score := if postScore > 50 then score + 0.1 else score
  let score := if numComments > 5 then score + 0.1 else score
  let score := if numComments > 20 then score + 0.1 else score
  min score 1.0

/-- `GitHubAdapter._calculate_confidence`: base 0.5, boosts for reactions and
comments, capped at 1.0. -/
def GitHubAdapter.calculate_confidence (reactions comments : ℤ) : ℚ :=
  let score : ℚ := 0.5
  let score := if reactions > 5 then score + 0.2 else score
  let score := if reactions > 20 then score + 0.1 else score
  let score := if comments > 3 then score + 0.1 else score
  let score := if comments > 10 then score + 0.1 else score
  min score 1.0

/-! ## Store (`pi_core/database.py`)

Each entity table is a list with the newest row first, so `get_*` reads
ordered by descending timestamp are list prefixes. -/

structure Db where
  problems : List Problem := []
  products : List Product := []
  listings : List MarketplaceListing := []
  runs : List PipelineRun := []
deriving DecidableEq, Repr

def Db.save_problem (db : Db) (p : Problem) : Db :=
  { db with problems := p :: db.problems }

def Db.get_problem (db : Db) (pid : String) : Option Problem :=
  db.problems.find? (fun p => p.id == pid)

def Db.save_product (db : Db) (p : Product) : Db :=
  { db with products := p :: db.products }

def Db.get_products (db : Db) (limit : ℕ) : List Product :=
  db.products.take limit

def Db.save_listing (db : Db) (l : MarketplaceListing) : Db :=
  { db with listings := l :: db.listings }

def Db.save_pipeline_run (db : Db) (r : PipelineRun) : Db :=
  { db with runs := r :: db.runs }

/-- `Database.update_pipeline_run` copies every field except `id` and
`started_at` onto the stored row with the same id (and is a no-op when the id
is absent). -/
def Db.update_pipeline_run (db : Db) (r : PipelineRun) : Db :=
  { db with runs := db.runs.map (fun r0 =>
      if r0.id == r.id then { r with id := r0.id, started_at := r0.started_at } else r0) }

/-! ## Pipeline orchestrator (`pi_core/pipeline/__init__.py`) -/

/-- Behaviour of the four domain engines consumed by `PipelineRunner`.
`Except.error e` models the engine raising an exception with `str(e) = e`.
The real engines return non-optional values on success (`define_product ->
Product`, `generate_assets -> Path`, `create_listing -> MarketplaceListing`),
so the runner's `if not product` / `if not product_dir` / `if not listing`
guards can never fire (those objects are always truthy in Python) and are
omitted here. -/
structure Engines where
  discoverResult : Except String (List Problem)
  defineResult : Problem → Except String Product
  buildResult : Product → Except String String
  packageResult : Product → String → Except String MarketplaceListing

/-- Observable store events, in execution order. -/
inductive Ev where
  | savePipelineRun (r : PipelineRun)
  | updatePipelineRun (r : PipelineRun)
  | saveProblem (p : Problem)
  | saveProduct (p : Product)
  | saveListing (l : MarketplaceListing)
  | engineCall (s : PipelineStage)
deriving DecidableEq, Repr

/-- Result of one stage executor: the threaded run record and store, the
events it emitted, and the stage outcome. -/
structure StageOut (α : Type) where
  run : PipelineRun
  db : Db
  trace : List Ev
  res : Except String α

/-- `PipelineRunner._log` appends a timestamped line; the timestamp prefix is
abstracted away, the message text kept. -/
def PipelineRun.logMsg (run : PipelineRun) (m : String) : PipelineRun :=
  { run with logs := run.logs ++ [m] }

/-- `PipelineRunner._run_discover_stage`.  Returns `none` when the aggregator
found nothing; numeric score-summary log lines are abstracted away. -/
def run_discover_stage (eng : Engines) (run : PipelineRun) (db : Db) :
    StageOut (Option Problem) :=
  let run := run.logMsg "Starting discovery stage..."
  let run := { run with stage := PipelineStage.discover }
  let db := db.update_pipeline_run run
  let tr := [Ev.updatePipelineRun run, Ev.engineCall PipelineStage.discover]
  match eng.discoverResult with
  | Except.error e =>
    ⟨run.logMsg ("Discovery stage error: " ++ e), db, tr, Except.error e⟩
  | Except.ok problems =>
    match problems with
    | [] => ⟨run.logMsg "No problems discovered", db, tr, Except.ok none⟩
    | p :: _ =>
      let db := db.save_problem p
      let run := run.logMsg ("Discovered problem: " ++ p.title)
      ⟨run, db, tr ++ [Ev.saveProblem p], Except.ok (some p)⟩

/-- `PipelineRunner._run_define_stage`. -/
def run_define_stage (eng : Engines) (problem : Problem)
    (run : PipelineRun) (db : Db) : StageOut Product :=
  let run := run.logMsg "Starting definition stage..."
  let run := { run with stage := PipelineStage.define }
  let db := db.update_pipeline_run run
  let tr := [Ev.updatePipelineRun run, Ev.engineCall PipelineStage.define]
  match eng.defineResult problem with
  | Except.error e =>
    ⟨run.logMsg ("Definition stage error: " ++ e), db, tr, Except.error e⟩
  | Except.ok product =>
    let db := db.save_product product
    let run := run.logMsg ("Defined product: " ++ product.title)
    ⟨run, db, tr ++ [Ev.saveProduct product], Except.ok product⟩

/-- `PipelineRunner._run_build_stage`; the produced artifact directory is its
path string. -/
def run_build_stage (eng : Engines) (product : Product)
    (run : PipelineRun) (db : Db) : StageOut String :=
  let run := run.logMsg "Starting build stage..."
  let run := { run with stage := PipelineStage.build }
  let db := db.update_pipeline_run run
  let tr := [Ev.updatePipelineRun run, Ev.engineCall PipelineStage.build]
  match eng.buildResult product with
  | Except.error e =>
    ⟨run.logMsg ("Build stage error: " ++ e), db, tr, Except.error e⟩
  | Except.ok product_dir =>
    let run := run.logMsg ("Generated assets in: " ++ product_dir)
    ⟨run, db, tr, Except.ok product_dir⟩

/-- `PipelineRunner._run_package_stage`. -/
def run_package_stage (eng : Engines) (product : Product) (product_dir : String)
    (run : PipelineRun) (db : Db) : StageOut MarketplaceListing :=
  let run := run.logMsg "Starting packaging stage..."
  let run := { run with stage := PipelineStage.package }
  let db := db.update_pipeline_run run
  let tr := [Ev.updatePipelineRun run, Ev.engineCall PipelineStage.package]
  match eng.packageResult product product_dir with
  | Except.error e =>
    ⟨run.logMsg ("Packaging stage error: " ++ e), db, tr, Except.error e⟩
  | Except.ok listing =>
    let db := db.save_listing listing
    let run := run.logMsg ("Created marketplace listing: " ++ listing.title)
    ⟨run, db, tr ++ [Ev.saveListing listing], Except.ok listing⟩

/-- How the `try` body of `run_full_pipeline` ends: an explicit
`return await self._fail_run(msg)`, an exception reaching the top-level
`except` (which prepends `"Pipeline error: "`), or the success fall-through. -/
inductive Outcome where
  | failed (msg : String)
  | raised (msg : String)
  | succeeded
deriving DecidableEq, Repr

/-- Stage 4 of the `try` body (lines 103–117).  `productOpt` records whether
the local variable `product` was bound by an earlier stage; referencing it
unbound raises a `NameError` that the top-level handler catches (that branch
is unreachable: it would require a prior artifact, which only stage 3
appends). -/
def bodyStage4 (eng : Engines) (start_from : PipelineStage)
    (productOpt : Option Product) (run : PipelineRun) (db : Db) (tr : List Ev) :
    PipelineRun × Db × List Ev × Outcome :=
  if start_from ∈ [PipelineStage.discover, PipelineStage.define,
      PipelineStage.build, PipelineStage.package] then
    match run.artifacts.getLast? with
    | none => (run, db, tr, Outcome.failed "No product artifacts found")
    | some product_dir =>
      match productOpt with
      | none => (run, db, tr, Outcome.raised "name \x27product\x27 is not defined")
      | some product =>
        match run_package_stage eng product product_dir run db with
        | ⟨run2, db2, tr2, Except.error e⟩ => (run2, db2, tr ++ tr2, Outcome.raised e)
        | ⟨run2, db2, tr2, Except.ok listing⟩ =>
          ({ run2 with listing_id := some listing.id }, db2, tr ++ tr2,
            Outcome.succeeded)
  else (run, db, tr, Outcome.succeeded)

/-- Stage 3 of the `try` body (lines 85–101): resolve `product` from the
prior stage's local or from the store (`'product' not in locals()`), then
build and append the artifact path. -/
def bodyStage3 (eng : Engines) (start_from : PipelineStage)
    (productOpt : Option Product) (run : PipelineRun) (db : Db) (tr : List Ev) :
    PipelineRun × Db × List Ev × Outcome :=
  if start_from ∈ [PipelineStage.discover, PipelineStage.define,
      PipelineStage.build] then
    match (match productOpt with
           | some p => some p
           | none => (db.get_products 1).head?) with
    | none => (run, db, tr, Outcome.failed "No product found to build")
    | some product =>
      match run_build_stage eng product run db with
      | ⟨run2, db2, tr2, Except.error e⟩ => (run2, db2, tr ++ tr2, Outcome.raised e)
      | ⟨run2, db2, tr2, Except.ok product_dir⟩ =>
        bodyStage4 eng start_from (some product)
          { run2 with artifacts := run2.artifacts ++ [product_dir] } db2 (tr ++ tr2)
  else bodyStage4 eng start_from productOpt run db tr

/-- Stage 2 of the `try` body (lines 78–83). -/
def bodyStage2 (eng : Engines) (start_from : PipelineStage) (problem : Problem)
    (run : PipelineRun) (db : Db) (tr : List Ev) :
    PipelineRun × Db × List Ev × Outcome :=
  if start_from ∈ [PipelineStage.discover, PipelineStage.define] then
    match run_define_stage eng problem run db with
    | ⟨run2, db2, tr2, Except.error e⟩ => (run2, db2, tr ++ tr2, Outcome.raised e)
    | ⟨run2, db2, tr2, Except.ok product⟩ =>
      bodyStage3 eng start_from (some product)
        { run2 with product_id := some product.id } db2 (tr ++ tr2)
  else bodyStage3 eng start_from none run db tr

/-- The `try` body of `run_full_pipeline` (lines 62–120), starting with
stage 1: either run discovery, or load the required `problem_id` from the
store (Python's `if not problem_id` is also true for an empty string). -/
def pipelineBody (eng : Engines) (problem_id : Option String)
    (start_from : PipelineStage) (run : PipelineRun) (db : Db) :
    PipelineRun × Db × List Ev × Outcome :=
  if start_from = PipelineStage.discover then
    match run_discover_stage eng run db with
    | ⟨run2, db2, tr2, Except.error e⟩ => (run2, db2, tr2, Outcome.raised e)
    | ⟨run2, db2, tr2, Except.ok none⟩ =>
      (run2, db2, tr2, Outcome.failed "No problems discovered")
    | ⟨run2, db2, tr2, Except.ok (some problem)⟩ =>
      bodyStage2 eng start_from problem
        { run2 with problem_id := some problem.id } db2 tr2
  else
    if problem_id.getD "" = "" then
      (run, db, [], Outcome.failed "Problem ID required when skipping discovery")
    else
      match db.get_problem (problem_id.getD "") with
      | none =>
        (run, db, [],
          Outcome.failed ("Problem " ++ problem_id.getD "" ++ " not found"))
      | some problem =>
        bodyStage2 eng start_from problem
          { run with problem_id := some problem.id } db []

/-- `PipelineRunner._fail_run`. -/
def fail_run (error_message : String) (run : PipelineRun) (now : ℕ) : PipelineRun :=
  { run with
      status := PipelineStatus.failed
      error_message := some error_message
      completed_at := some now
      logs := run.logs ++ ["Pipeline failed: " ++ error_message] }

/-- `PipelineRunner._complete_run`. -/
def complete_run (run : PipelineRun) (now : ℕ) : PipelineRun :=
  { run with
      status := PipelineStatus.success
      completed_at := some now
      logs := run.logs ++ ["Pipeline completed successfully!"] }

/-- `PipelineRunner.run_full_pipeline`: create and save the fresh running
record, execute the staged body, then finalize through `_complete_run` or
`_fail_run` (the top-level `except` prepends `"Pipeline error: "` to the
stringified cause) and persist the terminal record.  `now` is the completion
tick, `runId` the fresh uuid. -/
def run_full_pipeline (eng : Engines) (db : Db) (problem_id : Option String)
    (start_from : PipelineStage) (runId : String) (now : ℕ) :
    PipelineRun × Db × List Ev :=
  let run0 : PipelineRun :=
    { id := runId, stage := start_from, status := PipelineStatus.running }
  let db0 := db.save_pipeline_run run0
  let tr0 := [Ev.savePipelineRun run0]
  match pipelineBody eng problem_id start_from run0 db0 with
  | (run1, db1, tr1, Outcome.succeeded) =>
    let r := complete_run run1 now
    (r, db1.update_pipeline_run r, tr0 ++ tr1 ++ [Ev.updatePipelineRun r])
  | (run1, db1, tr1, Outcome.failed msg) =>
    let r := fail_run msg run1 now
    (r, db1.update_pipeline_run r, tr0 ++ tr1 ++ [Ev.updatePipelineRun r])
  | (run1, db1, tr1, Outcome.raised msg) =>
    let r := fail_run ("Pipeline error: " ++ msg) run1 now
    (r, db1.update_pipeline_run r, tr0 ++ tr1 ++ [Ev.updatePipelineRun r])

/-! ## Concrete fixtures used by witnesses and counterexamples -/

/-- A problem titled "Fix Bug" (all score fields integral so that structure
equality is kernel-decidable). -/
def pA : Problem :=
  { id := "p1", title := "Fix Bug", description := "da",
    intent := ProblemIntent.pain, source := ProblemSource.reddit,
    confidence_score := 1, frequency_score := 0, recency_score := 0 }

/-- A later problem titled "fix bug": same title up to case. -/
def pB : Problem :=
  { id := "p2", title := "fix bug", description := "db",
    intent := ProblemIntent.request, source := ProblemSource.github,
    confidence_score := 0, frequency_score := 3, recency_score := 1 }

/-- Composite score `0.4·1 + 0.3·1 + 0.3·min(10/15,1) = 0.9`. -/
def pX : Problem :=
  { id := "px", title := "x", description := "dx",
    intent := ProblemIntent.pain, source := ProblemSource.reddit,
    confidence_score := 1, frequency_score := 10, recency_score := 1 }

/-- Composite score `0.4·1 + 0 + 0.3·min(5/15,1) = 0.5`. -/
def pY : Problem :=
  { id := "py", title := "y", description := "dy",
    intent := ProblemIntent.pain, source := ProblemSource.reddit,
    confidence_score := 1, frequency_score := 5, recency_score := 0 }

/-- Same composite score as `pY`, discovered later. -/
def pZ : Problem :=
  { id := "pz", title := "z", description := "dz",
    intent := ProblemIntent.pain, source := ProblemSource.github,
    confidence_score := 1, frequency_score := 5, recency_score := 0 }

def prodA : Product :=
  { id := "prod1", problem_id := "p1", title := "Fix Bug - Quick Tool",
    product_type := ProductType.micro_tool, target_persona := "devs",
    value_proposition := "v", why_shippable := "w" }

def listA : MarketplaceListing :=
  { id := "list1", product_id := "prod1", title := "Fix Bug - Quick Tool",
    description := "d", anchor_price := 19, impulse_price := 9,
    asset_bundle_path := some "artifacts/prod1/bundle.zip" }

def dbEmpty : Db := {}

/-- Store holding a persisted problem only. -/
def dbProblemOnly : Db := { problems := [pA] }

/-- Store holding a persisted problem and product, as left by earlier
discover/define stages. -/
def dbResume : Db := { problems := [pA], products := [prodA] }

/-- Engine behaviour with zero configured adapters feeding discovery; the
later engines are never consulted on the paths exercised with it. -/
def engNoAdapters : Engines :=
  { discoverResult := Except.ok (ProblemDiscoveryEngine.discover [] 10)
    defineResult := fun _ => Except.error "unused"
    buildResult := fun _ => Except.error "unused"
    packageResult := fun _ _ => Except.error "unused" }

/-- Discovery finds `pA`; the definition engine raises `boom`. -/
def engDefineRaises : Engines :=
  { discoverResult := Except.ok [pA]
    defineResult := fun _ => Except.error "boom"
    buildResult := fun _ => Except.error "unused"
    packageResult := fun _ _ => Except.error "unused" }

/-- Discovery and definition succeed; the build engine raises. -/
def engBuildRaises : Engines :=
  { discoverResult := Except.ok [pA]
    defineResult := fun _ => Except.ok prodA
    buildResult := fun _ => Except.error "boom"
    packageResult := fun _ _ => Except.error "unused" }

/-- Discovery, definition and build succeed; the packaging engine raises. -/
def engPackageRaises : Engines :=
  { discoverResult := Except.ok [pA]
    defineResult := fun _ => Except.ok prodA
    buildResult := fun _ => Except.ok "artifacts/prod1"
    packageResult := fun _ _ => Except.error "boom" }

/-- Every engine succeeds. -/
def engAllOk : Engines :=
  { discoverResult := Except.ok [pA]
    defineResult := fun _ => Except.ok prodA
    buildResult := fun _ => Except.ok "artifacts/prod1"
    packageResult := fun _ _ => Except.ok listA }

/-- A stage executor's event trace opens with persisting the run record,
whose `stage` field already names the executor's stage, and the first engine
invocation comes only after that persist. -/
def persistsStageFirst (tr : List Ev) (s : PipelineStage) : Prop :=
  ∃ r rest, tr = Ev.updatePipelineRun r :: Ev.engineCall s :: rest ∧ r.stage = s

/-! # Theorems -/

/-! ## Deduplication (C4) -/

theorem dedupGo_sublist (l : List Problem) (seen : List String) :
    List.Sublist (dedupGo l seen) l := by
  induction l generalizing seen with
  | nil => simp [dedupGo]
  | cons p ps ih =>
    rw [dedupGo]
    split
    · exact (ih seen).cons p
    · exact (ih _).cons₂ p

theorem dedupGo_nodup_fresh (l : List Problem) (seen : List String) :
    ((dedupGo l seen).map (fun p => pyLower p.title)).Nodup ∧
    ∀ p ∈ dedupGo l seen, pyLower p.title ∉ seen := by
  induction l generalizing seen with
  | nil => simp [dedupGo]
  | cons p ps ih =>
    by_cases h : pyLower p.title ∈ seen
    · simpa [dedupGo, h] using ih seen
    · obtain ⟨ih1, ih2⟩ := ih (pyLower p.title :: seen)
      refine ⟨?_, ?_⟩
      · simp only [dedupGo, if_neg h, List.map_cons, List.nodup_cons]
        exact ⟨fun hmem => by
          obtain ⟨q, hq, hkey⟩ := List.mem_map.mp hmem
          exact ih2 q hq (hkey ▸ List.mem_cons_self _ _), ih1⟩
      · intro q hq
        simp only [dedupGo, if_neg h, List.mem_cons] at hq
        rcases hq with rfl | hq
        · exact h
        · exact fun hs => ih2 q hq (List.mem_cons_of_mem _ hs)

theorem dedupGo_covers (l : List Problem) (seen : List String) :
    ∀ p ∈ l, pyLower p.title ∈ seen ∨
      ∃ q ∈ dedupGo l seen, pyLower q.title = pyLower p.title := by
  induction l generalizing seen with
  | nil => simp
  | cons a as ih =>
    intro p hp
    rcases List.mem_cons.mp hp with rfl | hp
    · by_cases h : pyLower p.title ∈ seen
      · exact Or.inl h
      · exact Or.inr ⟨p, by simp [dedupGo, h], rfl⟩
    · by_cases h : pyLower a.title ∈ seen
      · rw [dedupGo, if_pos h]
        exact ih seen p hp
      · rcases ih (pyLower a.title :: seen) p hp with hmem | ⟨q, hq, hkey⟩
        · rcases List.mem_cons.mp hmem with heq | hmem
          · exact Or.inr ⟨a, by simp [dedupGo, h], heq.symm⟩
          · exact Or.inl hmem
        · exact Or.inr ⟨q, by simp [dedupGo, h, hq], hkey⟩

theorem dedupGo_first (l : List Problem) (seen : List String) :
    ∀ q ∈ dedupGo l seen,
      l.find? (fun x => pyLower x.title == pyLower q.title) = some q := by
  induction l generalizing seen with
  | nil => simp [dedupGo]
  | cons a as ih =>
    intro q hq
    by_cases h : pyLower a.title ∈ seen
    · rw [dedupGo, if_pos h] at hq
      have hfresh := (dedupGo_nodup_fresh as seen).2 q hq
      have hne : pyLower a.title ≠ pyLower q.title := fun he => hfresh (he ▸ h)
      rw [List.find?_cons_of_neg _ (by simpa using hne), ih seen q hq]
    · rw [dedupGo, if_neg h] at hq
      rcases List.mem_cons.mp hq with rfl | hq
      · exact List.find?_cons_of_pos _ (by simp)
      · have hfresh := (dedupGo_nodup_fresh as (pyLower a.title :: seen)).2 q hq
        have hne : pyLower a.title ≠ pyLower q.title := fun he =>
          hfresh (he ▸ List.mem_cons_self _ _)
        rw [List.find?_cons_of_neg _ (by simpa using hne), ih _ q hq]

/-- C4: deduplication keeps exactly one problem per lowercased exact title:
the output is a subsequence of the input, its lowercased titles are
pairwise distinct, every input title class is still represented, and each
survivor is the first-encountered problem of its title class. -/
theorem deduplicate_keeps_first_per_lowercased_title (l : List Problem) :
    List.Sublist (deduplicate_problems l) l ∧
    ((deduplicate_problems l).map (fun p => pyLower p.title)).Nodup ∧
    (∀ p ∈ l, ∃ q ∈ deduplicate_problems l, pyLower q.title = pyLower p.title) ∧
    (∀ q ∈ deduplicate_problems l,
      l.find? (fun x => pyLower x.title == pyLower q.title) = some q) := by
  refine ⟨dedupGo_sublist l [], (dedupGo_nodup_fresh l []).1, ?_, dedupGo_first l []⟩
  intro p hp
  rcases dedupGo_covers l [] p hp with h | h
  · simp at h
  · exact h

/-- Witness for C4 at the spec's own example: of the problems titled
"Fix Bug" and "fix bug", only the first-encountered one survives. -/
theorem deduplicate_keeps_first_per_lowercased_title_witness :
    [pA, pB].find? (fun x => pyLower x.title == pyLower pA.title) = some pA ∧
    deduplicate_problems [pA, pB] = [pA] :=
  ⟨(deduplicate_keeps_first_per_lowercased_title [pA, pB]).2.2.2 pA (by decide),
   by decide⟩

/-! ## Ranking: descending stable sort (C5) -/

theorem filter_orderedInsert (s : ℚ) (p : Problem) (l : List Problem) :
    (List.orderedInsert (fun a b => composite_score b ≤ composite_score a) p l).filter
        (fun q => decide (composite_score q = s)) =
      if composite_score p = s
        then p :: l.filter (fun q => decide (composite_score q = s))
        else l.filter (fun q => decide (composite_score q = s)) := by
  induction l with
  | nil =>
    by_cases hp : composite_score p = s <;>
      simp [List.orderedInsert, List.filter_cons, hp]
  | cons q qs ih =>
    by_cases hpq : composite_score q ≤ composite_score p
    · simp only [List.orderedInsert, if_pos hpq]
      by_cases hp : composite_score p = s <;> by_cases hq : composite_score q = s <;>
        simp [List.filter_cons, hp, hq]
    · have hlt : composite_score p < composite_score q := not_le.mp hpq
      simp only [List.orderedInsert, if_neg hpq]
      by_cases hp : composite_score p = s
      · have hq : composite_score q ≠ s := ne_of_gt (hp ▸ hlt)
        simp [List.filter_cons, hp, hq, ih]
      · simp [List.filter_cons, hp, ih]

theorem filter_insertionSort (s : ℚ) (l : List Problem) :
    (List.insertionSort (fun a b => composite_score b ≤ composite_score a) l).filter
        (fun q => decide (composite_score q = s)) =
      l.filter (fun q => decide (composite_score q = s)) := by
  induction l with
  | nil => rfl
  | cons p ps ih =>
    simp only [List.insertionSort]
    rw [filter_orderedInsert]
    by_cases hp : composite_score p = s <;> simp [List.filter_cons, hp, ih]

theorem filter_take_exists {α : Type} (p : α → Bool) :
    ∀ (l : List α) (n : ℕ), ∃ k, (l.take n).filter p = (l.filter p).take k := by
  intro l
  induction l with
  | nil => exact fun n => ⟨0, by simp⟩
  | cons a as ih =>
    intro n
    cases n with
    | zero => exact ⟨0, by simp⟩
    | succ m =>
      obtain ⟨k, hk⟩ := ih m
      by_cases ha : p a
      · exact ⟨k + 1, by simp [List.take_succ_cons, List.filter_cons, ha, hk]⟩
      · exact ⟨k, by simp [List.take_succ_cons, List.filter_cons, ha, hk]⟩

/-- C5: the aggregator's output is sorted by composite score descending, and
the sort is stable — for every score value, the output's problems of that
score form a prefix of the deduplicated input's problems of that score, in
the same order; on the spec's example (three problems scoring
0.9 / 0.5 / 0.5) the output order is exactly the input order. -/
theorem discover_sorted_descending_and_stable
    (adapterResults : List (Except String (List Problem))) (limit : ℕ) :
    List.Sorted (fun p q => composite_score q ≤ composite_score p)
      (ProblemDiscoveryEngine.discover adapterResults limit) ∧
    (∀ s : ℚ, ∃ k,
      (ProblemDiscoveryEngine.discover adapterResults limit).filter
          (fun p => decide (composite_score p = s)) =
        ((deduplicate_problems (collectResults adapterResults)).filter
          (fun p => decide (composite_score p = s))).take k) ∧
    composite_score pX = 0.9 ∧ composite_score pY = 0.5 ∧ composite_score pZ = 0.5 ∧
    ProblemDiscoveryEngine.discover [Except.ok [pX, pY, pZ]] 10 = [pX, pY, pZ] := by
  refine ⟨?_, ?_, ?_, ?_, ?_, ?_⟩
  · haveI : IsTotal Problem (fun p q => composite_score q ≤ composite_score p) :=
      ⟨fun _ _ => le_total _ _⟩
    haveI : IsTrans Problem (fun p q => composite_score q ≤ composite_score p) :=
      ⟨fun _ _ _ h1 h2 => le_trans h2 h1⟩
    exact (List.sorted_insertionSort _ _).sublist (List.take_sublist _ _)
  · intro s
    obtain ⟨k, hk⟩ := filter_take_exists (fun p => decide (composite_score p = s))
      (List.insertionSort (fun a b => composite_score b ≤ composite_score a)
        (deduplicate_problems (collectResults adapterResults))) limit
    rw [filter_insertionSort] at hk
    exact ⟨k, hk⟩
  · norm_num [composite_score, composite_score_fn, pX, min_def]
  · norm_num [composite_score, composite_score_fn, pY, min_def]
  · norm_num [composite_score, composite_score_fn, pZ, min_def]
  · have hc : collectResults [Except.ok [pX, pY, pZ]] = [pX, pY, pZ] ++ [] := rfl
    have hd : deduplicate_problems ([pX, pY, pZ] ++ []) = [pX, pY, pZ] := by decide
    have hs : List.insertionSort (fun a b => composite_score b ≤ composite_score a)
        [pX, pY, pZ] = [pX, pY, pZ] := by
      norm_num [List.insertionSort, List.orderedInsert,
        composite_score, composite_score_fn, pX, pY, pZ, min_def]
    simp only [ProblemDiscoveryEngine.discover, hc, hd, hs]
    decide

/-! ## Composite score monotonicity (C6) -/

/-- C6: on the stated domain, the composite ranking score is monotone
non-decreasing in confidence, recency and frequency separately. -/
theorem composite_score_fn_monotone (c c' r r' f f' : ℚ)
    (hc0 : 0 ≤ c) (hc1 : c ≤ 1) (hc0' : 0 ≤ c') (hc1' : c' ≤ 1)
    (hr0 : 0 ≤ r) (hr1 : r ≤ 1) (hr0' : 0 ≤ r') (hr1' : r' ≤ 1)
    (hf0 : 0 ≤ f) (hf0' : 0 ≤ f') :
    (c ≤ c' → composite_score_fn c r f ≤ composite_score_fn c' r f) ∧
    (r ≤ r' → composite_score_fn c r f ≤ composite_score_fn c r' f) ∧
    (f ≤ f' → composite_score_fn c r f ≤ composite_score_fn c r f') := by
  refine ⟨fun h => ?_, fun h => ?_, fun h => ?_⟩ <;> unfold composite_score_fn
  · linarith
  · linarith
  · have hdiv : f / 15 ≤ f' / 15 := by linarith
    have hmin : min (f / 15) 1.0 ≤ min (f' / 15) 1.0 := min_le_min hdiv le_rfl
    linarith

/-- Witness for C6 at concrete points of the domain. -/
theorem composite_score_fn_monotone_witness :
    (composite_score_fn 0 0 0 ≤ composite_score_fn 1 0 0) ∧
    (composite_score_fn 0 0 0 ≤ composite_score_fn 0 1 0) ∧
    (composite_score_fn 0 0 0 ≤ composite_score_fn 0 0 1) := by
  obtain ⟨h1, h2, h3⟩ := composite_score_fn_monotone 0 1 0 1 0 1
    le_rfl zero_le_one zero_le_one le_rfl
    le_rfl zero_le_one zero_le_one le_rfl
    le_rfl zero_le_one
  exact ⟨h1 zero_le_one, h2 zero_le_one, h3 zero_le_one⟩

/-! ## Adapter confidence bounds (C10) -/

/-- C10: both adapters' confidence computation stays within `[0.5, 1.0]` for
every engagement input — base 0.5, non-negative boosts, capped at 1.0 — so
every problem they build has `confidence_score ≥ 0.5`. -/
theorem adapter_confidence_bounds (s c : ℤ) :
    (1/2 ≤ RedditAdapter.calculate_confidence s c ∧
      RedditAdapter.calculate_confidence s c ≤ 1) ∧
    (1/2 ≤ GitHubAdapter.calculate_confidence s c ∧
      GitHubAdapter.calculate_confidence s c ≤ 1) := by
  unfold RedditAdapter.calculate_confidence GitHubAdapter.calculate_confidence
  refine ⟨⟨?_, ?_⟩, ⟨?_, ?_⟩⟩ <;> split_ifs <;> simp [min_def] <;> split_ifs <;> norm_num

/-! ## Orchestrator totality and terminal handling (C1) -/

/-- C1: for every engine behaviour, store, problem id and start stage, the
orchestrator returns (never throws): the returned run is terminal with
status success or failed, its completion timestamp is set, a failed run
carries an error message, and the final store event is the persistence of
exactly the returned terminal run. -/
theorem run_full_pipeline_never_throws (eng : Engines) (db : Db)
    (problem_id : Option String) (start_from : PipelineStage)
    (runId : String) (now : ℕ) (r : PipelineRun) (d : Db) (t : List Ev)
    (h : run_full_pipeline eng db problem_id start_from runId now = (r, d, t)) :
    (r.status = PipelineStatus.success ∨ r.status = PipelineStatus.failed) ∧
    r.completed_at = some now ∧
    (r.status = PipelineStatus.failed → r.error_message ≠ none) ∧
    t.getLast? = some (Ev.updatePipelineRun r) := by
  rcases hb : pipelineBody eng problem_id start_from
      { id := runId, stage := start_from, status := PipelineStatus.running }
      (db.save_pipeline_run
        { id := runId, stage := start_from, status := PipelineStatus.running })
    with ⟨run1, db1, tr1, oc⟩
  cases oc with
  | succeeded =>
    simp only [run_full_pipeline, hb] at h
    simp only [Prod.mk.injEq] at h
    obtain ⟨h1, _, h3⟩ := h
    subst h1; subst h3
    refine ⟨Or.inl rfl, rfl, ?_, List.getLast?_concat _⟩
    intro hst
    simp [complete_run] at hst
  | failed msg =>
    simp only [run_full_pipeline, hb] at h
    simp only [Prod.mk.injEq] at h
    obtain ⟨h1, _, h3⟩ := h
    subst h1; subst h3
    exact ⟨Or.inr rfl, rfl, fun _ => by simp [fail_run], List.getLast?_concat _⟩
  | raised msg =>
    simp only [run_full_pipeline, hb] at h
    simp only [Prod.mk.injEq] at h
    obtain ⟨h1, _, h3⟩ := h
    subst h1; subst h3
    exact ⟨Or.inr rfl, rfl, fun _ => by simp [fail_run], List.getLast?_concat _⟩

/-- Witness for C1 on a concrete run (zero adapters, so the run fails). -/
theorem run_full_pipeline_never_throws_witness :
    ((run_full_pipeline engNoAdapters dbEmpty none PipelineStage.discover "run" 7).1.status
        = PipelineStatus.success ∨
      (run_full_pipeline engNoAdapters dbEmpty none PipelineStage.discover "run" 7).1.status
        = PipelineStatus.failed) ∧
    (run_full_pipeline engNoAdapters dbEmpty none PipelineStage.discover "run" 7).1.completed_at
      = some 7 ∧
    ((run_full_pipeline engNoAdapters dbEmpty none PipelineStage.discover "run" 7).1.status
        = PipelineStatus.failed →
      (run_full_pipeline engNoAdapters dbEmpty none PipelineStage.discover "run" 7).1.error_message
        ≠ none) ∧
    (run_full_pipeline engNoAdapters dbEmpty none PipelineStage.discover "run" 7).2.2.getLast? =
      some (Ev.updatePipelineRun
        (run_full_pipeline engNoAdapters dbEmpty none PipelineStage.discover "run" 7).1) :=
  run_full_pipeline_never_throws engNoAdapters dbEmpty none PipelineStage.discover "run" 7
    _ _ _ rfl

/-! ## Persist-before-work in every stage executor (C9) -/

/-- C9: every stage executor's event trace begins by persisting the run with
its `stage` field set to the executor's own stage, and only then calls the
domain engine — for all engine behaviours, run records and stores. -/
theorem stage_executors_persist_before_engine (eng : Engines) (run : PipelineRun)
    (db : Db) (problem : Problem) (product : Product) (product_dir : String) :
    persistsStageFirst (run_discover_stage eng run db).trace PipelineStage.discover ∧
    persistsStageFirst (run_define_stage eng problem run db).trace PipelineStage.define ∧
    persistsStageFirst (run_build_stage eng product run db).trace PipelineStage.build ∧
    persistsStageFirst (run_package_stage eng product product_dir run db).trace
      PipelineStage.package := by
  unfold persistsStageFirst
  refine ⟨?_, ?_, ?_, ?_⟩
  · rcases hd : eng.discoverResult with e | ps
    · simp only [run_discover_stage, hd]
      exact ⟨_, _, rfl, rfl⟩
    · rcases ps with _ | ⟨p, ps⟩
      · simp only [run_discover_stage, hd]
        exact ⟨_, _, rfl, rfl⟩
      · simp only [run_discover_stage, hd]
        exact ⟨_, _, rfl, rfl⟩
  · rcases hd : eng.defineResult problem with e | product
    · simp only [run_define_stage, hd]
      exact ⟨_, _, rfl, rfl⟩
    · simp only [run_define_stage, hd]
      exact ⟨_, _, rfl, rfl⟩
  · rcases hd : eng.buildResult product with e | dir
    · simp only [run_build_stage, hd]
      exact ⟨_, _, rfl, rfl⟩
    · simp only [run_build_stage, hd]
      exact ⟨_, _, rfl, rfl⟩
  · rcases hd : eng.packageResult product product_dir with e | listing
    · simp only [run_package_stage, hd]
      exact ⟨_, _, rfl, rfl⟩
    · simp only [run_package_stage, hd]
      exact ⟨_, _, rfl, rfl⟩

/-! ## Zero adapters: the "no problems discovered" run (C2) -/

/-- Counterexample to C2 as stated: in the zero-adapter scenario the run does
fail, but `error_message` is `"No problems discovered"` (capital N, as
`_fail_run` receives it), not `"no problems discovered"`. -/
theorem no_problems_message_counterexample :
    (run_full_pipeline engNoAdapters dbEmpty none PipelineStage.discover "run" 0).1.status
      = PipelineStatus.failed ∧
    (run_full_pipeline engNoAdapters dbEmpty none PipelineStage.discover "run" 0).1.error_message
      ≠ some "no problems discovered" ∧
    (run_full_pipeline engNoAdapters dbEmpty none PipelineStage.discover "run" 0).1.error_message
      = some "No problems discovered" := by
  decide

/-- C2 (amended): with zero adapters configured the aggregator returns the
empty sequence without raising, and a discover-start run on that result ends
failed with `error_message = "No problems discovered"`, stage `discover`,
and no problem/product/listing ids set. -/
theorem no_problems_discovered_run (eng : Engines) (db : Db) (pid : Option String)
    (runId : String) (now : ℕ) (limit : ℕ)
    (h : eng.discoverResult = Except.ok (ProblemDiscoveryEngine.discover [] 10)) :
    ProblemDiscoveryEngine.discover [] limit = [] ∧
    (run_full_pipeline eng db pid PipelineStage.discover runId now).1.status
      = PipelineStatus.failed ∧
    (run_full_pipeline eng db pid PipelineStage.discover runId now).1.error_message
      = some "No problems discovered" ∧
    (run_full_pipeline eng db pid PipelineStage.discover runId now).1.stage
      = PipelineStage.discover ∧
    (run_full_pipeline eng db pid PipelineStage.discover runId now).1.problem_id = none ∧
    (run_full_pipeline eng db pid PipelineStage.discover runId now).1.product_id = none ∧
    (run_full_pipeline eng db pid PipelineStage.discover runId now).1.listing_id = none := by
  have h0 : eng.discoverResult = Except.ok [] := h
  refine ⟨by simp [ProblemDiscoveryEngine.discover, collectResults,
    deduplicate_problems, dedupGo], ?_⟩
  simp [run_full_pipeline, pipelineBody, run_discover_stage, h0, fail_run,
    PipelineRun.logMsg]

/-- Witness for C2 (amended) at the concrete zero-adapter engine. -/
theorem no_problems_discovered_run_witness :
    ProblemDiscoveryEngine.discover [] 3 = [] ∧
    (run_full_pipeline engNoAdapters dbEmpty none PipelineStage.discover "run" 0).1.status
      = PipelineStatus.failed ∧
    (run_full_pipeline engNoAdapters dbEmpty none PipelineStage.discover "run" 0).1.error_message
      = some "No problems discovered" ∧
    (run_full_pipeline engNoAdapters dbEmpty none PipelineStage.discover "run" 0).1.stage
      = PipelineStage.discover ∧
    (run_full_pipeline engNoAdapters dbEmpty none PipelineStage.discover "run" 0).1.problem_id
      = none ∧
    (run_full_pipeline engNoAdapters dbEmpty none PipelineStage.discover "run" 0).1.product_id
      = none ∧
    (run_full_pipeline engNoAdapters dbEmpty none PipelineStage.discover "run" 0).1.listing_id
      = none :=
  no_problems_discovered_run engNoAdapters dbEmpty none "run" 0 3 rfl

/-! ## Stage exceptions become failed runs with a prefixed message (C3) -/

/-- Counterexample to C3 as stated: when the definition engine raises
`boom`, the terminal run's `error_message` is `"Pipeline error: boom"` — the
stringified cause survives only as a suffix, not verbatim as the whole
message. -/
theorem stage_error_message_counterexample :
    (run_full_pipeline engDefineRaises dbEmpty none PipelineStage.discover "run" 0).1.error_message
      ≠ some "boom" ∧
    (run_full_pipeline engDefineRaises dbEmpty none PipelineStage.discover "run" 0).1.error_message
      = some "Pipeline error: boom" := by
  decide

/-- C3 (amended): every exception raised by the define, build or package
engine is caught and turned into a terminal failed run whose
`error_message` is `"Pipeline error: "` followed by the stringified
exception, the cause text preserved verbatim as that suffix. -/
theorem stage_exception_failed_with_prefixed_message (eng : Engines) (db : Db)
    (pid : Option String) (runId : String) (now : ℕ)
    (p : Problem) (ps : List Problem) (product : Product) (product_dir : String)
    (e : String) :
    (eng.discoverResult = Except.ok (p :: ps) →
      eng.defineResult p = Except.error e →
      (run_full_pipeline eng db pid PipelineStage.discover runId now).1.status
          = PipelineStatus.failed ∧
        (run_full_pipeline eng db pid PipelineStage.discover runId now).1.error_message
          = some ("Pipeline error: " ++ e)) ∧
    (eng.discoverResult = Except.ok (p :: ps) →
      eng.defineResult p = Except.ok product →
      eng.buildResult product = Except.error e →
      (run_full_pipeline eng db pid PipelineStage.discover runId now).1.status
          = PipelineStatus.failed ∧
        (run_full_pipeline eng db pid PipelineStage.discover runId now).1.error_message
          = some ("Pipeline error: " ++ e)) ∧
    (eng.discoverResult = Except.ok (p :: ps) →
      eng.defineResult p = Except.ok product →
      eng.buildResult product = Except.ok product_dir →
      eng.packageResult product product_dir = Except.error e →
      (run_full_pipeline eng db pid PipelineStage.discover runId now).1.status
          = PipelineStatus.failed ∧
        (run_full_pipeline eng db pid PipelineStage.discover runId now).1.error_message
          = some ("Pipeline error: " ++ e)) := by
  refine ⟨fun h1 h2 => ?_, fun h1 h2 h3 => ?_, fun h1 h2 h3 h4 => ?_⟩
  · simp [run_full_pipeline, pipelineBody, bodyStage2, run_discover_stage,
      run_define_stage, h1, h2, fail_run, PipelineRun.logMsg]
  · simp [run_full_pipeline, pipelineBody, bodyStage2, bodyStage3,
      run_discover_stage, run_define_stage, run_build_stage, h1, h2, h3,
      fail_run, PipelineRun.logMsg]
  · simp [run_full_pipeline, pipelineBody, bodyStage2, bodyStage3, bodyStage4,
      run_discover_stage, run_define_stage, run_build_stage, run_package_stage,
      h1, h2, h3, h4, fail_run, PipelineRun.logMsg]

/-- Witness for C3 (amended): one concrete engine per raising stage. -/
theorem stage_exception_failed_with_prefixed_message_witness :
    ((run_full_pipeline engDefineRaises dbEmpty none PipelineStage.discover "run" 0).1.status
        = PipelineStatus.failed ∧
      (run_full_pipeline engDefineRaises dbEmpty none PipelineStage.discover "run" 0).1.error_message
        = some ("Pipeline error: " ++ "boom")) ∧
    ((run_full_pipeline engBuildRaises dbEmpty none PipelineStage.discover "run" 0).1.status
        = PipelineStatus.failed ∧
      (run_full_pipeline engBuildRaises dbEmpty none PipelineStage.discover "run" 0).1.error_message
        = some ("Pipeline error: " ++ "boom")) ∧
    ((run_full_pipeline engPackageRaises dbEmpty none PipelineStage.discover "run" 0).1.status
        = PipelineStatus.failed ∧
      (run_full_pipeline engPackageRaises dbEmpty none PipelineStage.discover "run" 0).1.error_message
        = some ("Pipeline error: " ++ "boom")) :=
  ⟨(stage_exception_failed_with_prefixed_message engDefineRaises dbEmpty none "run" 0
      pA [] prodA "artifacts/prod1" "boom").1 rfl rfl,
   (stage_exception_failed_with_prefixed_message engBuildRaises dbEmpty none "run" 0
      pA [] prodA "artifacts/prod1" "boom").2.1 rfl rfl rfl,
   (stage_exception_failed_with_prefixed_message engPackageRaises dbEmpty none "run" 0
      pA [] prodA "artifacts/prod1" "boom").2.2 rfl rfl rfl rfl⟩

/-! ## Resuming from build / package (C7) -/

/-- Counterexample to C7 as stated: a `start_from=build` run with a
previously persisted product and no prior artifact does not fail with
"no product artifacts found" — the build stage itself produces the artifact
and the run succeeds. -/
theorem resume_from_build_counterexample :
    (run_full_pipeline engAllOk dbResume (some "p1") PipelineStage.build "run" 0).1.status
      = PipelineStatus.success ∧
    (run_full_pipeline engAllOk dbResume (some "p1") PipelineStage.build "run" 0).1.error_message
      ≠ some "no product artifacts found" := by
  decide

theorem get_problem_after_save_run (db : Db) (r : PipelineRun) (s : String) :
    (db.save_pipeline_run r).get_problem s = db.get_problem s := rfl

theorem bodyStage4_trace_calls (eng : Engines) (st : PipelineStage)
    (productOpt : Option Product) (run : PipelineRun) (db : Db) (tr : List Ev)
    (s : PipelineStage) :
    Ev.engineCall s ∈ (bodyStage4 eng st productOpt run db tr).2.2.1 →
      Ev.engineCall s ∈ tr ∨ s = PipelineStage.package := by
  intro hs
  unfold bodyStage4 at hs
  by_cases hmem : st ∈ [PipelineStage.discover, PipelineStage.define,
      PipelineStage.build, PipelineStage.package]
  · rw [if_pos hmem] at hs
    rcases hlast : run.artifacts.getLast? with _ | dir <;> rw [hlast] at hs
    · exact Or.inl hs
    · rcases productOpt with _ | product
      · exact Or.inl hs
      · rcases hp : eng.packageResult product dir with e | listing <;>
          simp only [run_package_stage, hp, List.mem_append] at hs <;>
          rcases hs with h | h
        · exact Or.inl h
        · right; simpa using h
        · exact Or.inl h
        · right; simpa using h
  · rw [if_neg hmem] at hs
    exact Or.inl hs

theorem bodyStage3_trace_calls (eng : Engines) (st : PipelineStage)
    (productOpt : Option Product) (run : PipelineRun) (db : Db) (tr : List Ev)
    (s : PipelineStage) :
    Ev.engineCall s ∈ (bodyStage3 eng st productOpt run db tr).2.2.1 →
      Ev.engineCall s ∈ tr ∨ s = PipelineStage.build ∨ s = PipelineStage.package := by
  intro hs
  unfold bodyStage3 at hs
  by_cases hmem : st ∈ [PipelineStage.discover, PipelineStage.define,
      PipelineStage.build]
  · rw [if_pos hmem] at hs
    rcases hres : (match productOpt with
        | some p => some p
        | none => (db.get_products 1).head?) with _ | product <;> rw [hres] at hs
    · exact Or.inl hs
    · rcases hb : eng.buildResult product with e | dir <;>
        simp only [run_build_stage, hb] at hs
      · simp only [List.mem_append, List.mem_cons, List.not_mem_nil, or_false] at hs
        rcases hs with h | h | h
        · exact Or.inl h
        · simp at h
        · simp only [Ev.engineCall.injEq] at h
          exact Or.inr (Or.inl h)
      · rcases bodyStage4_trace_calls eng st (some product) _ _ _ s hs with h | h
        · simp only [List.mem_append, List.mem_cons, List.not_mem_nil, or_false] at h
          rcases h with h' | h' | h'
          · exact Or.inl h'
          · simp at h'
          · simp only [Ev.engineCall.injEq] at h'
            exact Or.inr (Or.inl h')
        · exact Or.inr (Or.inr h)
  · rw [if_neg hmem] at hs
    rcases bodyStage4_trace_calls eng st productOpt run db tr s hs with h | h
    · exact Or.inl h
    · exact Or.inr (Or.inr h)

theorem pipelineBody_build_calls (eng : Engines) (pid : Option String)
    (run : PipelineRun) (db : Db) (s : PipelineStage) :
    Ev.engineCall s ∈ (pipelineBody eng pid PipelineStage.build run db).2.2.1 →
      s = PipelineStage.build ∨ s = PipelineStage.package := by
  intro hs
  unfold pipelineBody bodyStage2 at hs
  rw [if_neg (by decide : ¬(PipelineStage.build = PipelineStage.discover))] at hs
  by_cases hpid : pid.getD "" = ""
  · rw [if_pos hpid] at hs
    simp at hs
  · rw [if_neg hpid] at hs
    rcases hg : db.get_problem (pid.getD "") with _ | problem <;> rw [hg] at hs <;>
      dsimp only at hs
    · simp at hs
    · rw [if_neg (by decide : ¬(PipelineStage.build ∈
          [PipelineStage.discover, PipelineStage.define]))] at hs
      rcases bodyStage3_trace_calls eng PipelineStage.build none _ db [] s hs
        with h | h | h
      · simp at h
      · exact Or.inl h
      · exact Or.inr h

theorem get_products_after_save_run (db : Db) (r : PipelineRun) (n : ℕ) :
    (db.save_pipeline_run r).get_products n = db.get_products n := rfl

/-- C7 (amended): a `start_from=build` run never invokes the discovery or
definition engines; if no product was previously persisted it fails cleanly
with "No product found to build"; the "No product artifacts found" failure
belongs to `start_from=package`, where the fresh run necessarily has no
artifact recorded. -/
theorem resume_from_build_behaviour (eng : Engines) (db : Db) (pid : Option String)
    (runId : String) (now : ℕ) (problem : Problem) :
    (Ev.engineCall PipelineStage.discover ∉
        (run_full_pipeline eng db pid PipelineStage.build runId now).2.2 ∧
      Ev.engineCall PipelineStage.define ∉
        (run_full_pipeline eng db pid PipelineStage.build runId now).2.2) ∧
    (pid.getD "" ≠ "" →
      db.get_problem (pid.getD "") = some problem →
      db.get_products 1 = [] →
      (run_full_pipeline eng db pid PipelineStage.build runId now).1.status
          = PipelineStatus.failed ∧
        (run_full_pipeline eng db pid PipelineStage.build runId now).1.error_message
          = some "No product found to build") ∧
    (pid.getD "" ≠ "" →
      db.get_problem (pid.getD "") = some problem →
      (run_full_pipeline eng db pid PipelineStage.package runId now).1.status
          = PipelineStatus.failed ∧
        (run_full_pipeline eng db pid PipelineStage.package runId now).1.error_message
          = some "No product artifacts found") := by
  have hnocall : ∀ s : PipelineStage,
      Ev.engineCall s ∈ (run_full_pipeline eng db pid PipelineStage.build runId now).2.2 →
        s = PipelineStage.build ∨ s = PipelineStage.package := by
    intro s hs
    rcases hb : pipelineBody eng pid PipelineStage.build
        { id := runId, stage := PipelineStage.build, status := PipelineStatus.running }
        (db.save_pipeline_run
          { id := runId, stage := PipelineStage.build, status := PipelineStatus.running })
      with ⟨run1, db1, tr1, oc⟩
    have hcalls : ∀ s' : PipelineStage, Ev.engineCall s' ∈ tr1 →
        s' = PipelineStage.build ∨ s' = PipelineStage.package := by
      intro s' h
      exact pipelineBody_build_calls eng pid _ _ s' (by rw [hb]; exact h)
    cases oc <;> simp only [run_full_pipeline, hb] at hs <;>
      simp only [List.mem_append, List.mem_cons, List.not_mem_nil, or_false] at hs <;>
      rcases hs with (h | h) | h <;>
      first
        | exact hcalls s h
        | simp at h
  refine ⟨⟨fun h => ?_, fun h => ?_⟩, fun hp h1 h2 => ?_, fun hp h1 => ?_⟩
  · rcases hnocall PipelineStage.discover h with h' | h' <;> simp at h'
  · rcases hnocall PipelineStage.define h with h' | h' <;> simp at h'
  · simp [run_full_pipeline, pipelineBody, bodyStage2, bodyStage3, bodyStage4,
      run_build_stage, hp, h1, h2, fail_run, PipelineRun.logMsg,
      get_problem_after_save_run, get_products_after_save_run]
  · simp [run_full_pipeline, pipelineBody, bodyStage2, bodyStage3, bodyStage4,
      hp, h1, fail_run, PipelineRun.logMsg, get_problem_after_save_run]

/-- Witness for C7 (amended) on a store holding only the problem. -/
theorem resume_from_build_behaviour_witness :
    (Ev.engineCall PipelineStage.discover ∉
        (run_full_pipeline engAllOk dbProblemOnly (some "p1") PipelineStage.build "run" 0).2.2 ∧
      Ev.engineCall PipelineStage.define ∉
        (run_full_pipeline engAllOk dbProblemOnly (some "p1") PipelineStage.build "run" 0).2.2) ∧
    ((run_full_pipeline engAllOk dbProblemOnly (some "p1") PipelineStage.build "run" 0).1.status
        = PipelineStatus.failed ∧
      (run_full_pipeline engAllOk dbProblemOnly (some "p1") PipelineStage.build "run" 0).1.error_message
        = some "No product found to build") ∧
    ((run_full_pipeline engAllOk dbProblemOnly (some "p1") PipelineStage.package "run" 0).1.status
        = PipelineStatus.failed ∧
      (run_full_pipeline engAllOk dbProblemOnly (some "p1") PipelineStage.package "run" 0).1.error_message
        = some "No product artifacts found") := by
  obtain ⟨hi, hii, hiii⟩ :=
    resume_from_build_behaviour engAllOk dbProblemOnly (some "p1") "run" 0 pA
  exact ⟨hi, hii (by decide) (by decide) (by decide), hiii (by decide) (by decide)⟩

/-! ## Forward-only failure: package fault keeps the product (C8) -/

/-- C8: when the packaging engine raises after discovery, definition and
build succeeded, the run ends failed, yet the product saved by the define
stage is still the store's most recent product — earlier-stage progress is
never rolled back. -/
theorem package_failure_keeps_defined_product (eng : Engines) (db : Db)
    (pid : Option String) (runId : String) (now : ℕ)
    (p : Problem) (ps : List Problem) (product : Product) (product_dir : String)
    (e : String)
    (h1 : eng.discoverResult = Except.ok (p :: ps))
    (h2 : eng.defineResult p = Except.ok product)
    (h3 : eng.buildResult product = Except.ok product_dir)
    (h4 : eng.packageResult product product_dir = Except.error e) :
    (run_full_pipeline eng db pid PipelineStage.discover runId now).1.status
      = PipelineStatus.failed ∧
    (run_full_pipeline eng db pid PipelineStage.discover runId now).2.1.get_products 1
      = [product] := by
  simp [run_full_pipeline, pipelineBody, bodyStage2, bodyStage3, bodyStage4,
    run_discover_stage, run_define_stage, run_build_stage, run_package_stage,
    h1, h2, h3, h4, fail_run, Db.save_problem, Db.save_product,
    Db.update_pipeline_run, Db.get_products, Db.save_pipeline_run,
    PipelineRun.logMsg]

/-- Witness for C8 at the concrete raising-package engine. -/
theorem package_failure_keeps_defined_product_witness :
    (run_full_pipeline engPackageRaises dbEmpty none PipelineStage.discover "run" 0).1.status
      = PipelineStatus.failed ∧
    (run_full_pipeline engPackageRaises dbEmpty none PipelineStage.discover "run" 0).2.1.get_products 1
      = [prodA] :=
  package_failure_keeps_defined_product engPackageRaises dbEmpty none "run" 0
    pA [] prodA "artifacts/prod1" "boom" rfl rfl rfl rfl

end PiCore
